import Mathlib

/-!
Verification of the ALSA <-> Oboe PCM I/O plugin (src/pcm_oboe.cpp).

The plugin is a bridge between ALSA's pull-based ring-buffer PCM model and
Oboe's push-based stream model. The C++ class OboePcm holds a mutex, an
optional backend stream handle (a shared_ptr), and implements the ioplug
callbacks Start, Stop, Pointer, Transfer, Close, Prepare, Drain, Pause.

The backend (Oboe) is opaque to the bridge, so we embed each callback as a
function of the bridge-visible state together with a script of the backend's
responses, and we record the backend requests the callback issues as an
explicit effect list. All callbacks execute under the bridge mutex, so one
call sees a single consistent backend script.

Numeric conventions of the source kept in the model:
  int64_t frame counters are embedded as Int; snd_pcm_uframes_t sizes as Nat;
  ALSA return codes as Int (0 success, negative errno or -1 generic error).
-/

namespace AlsaOboe

/-- The errno value EBADFD; callbacks return -EBADFD when no stream handle is
present (the "NotReady" error of the specification). -/
def EBADFD : Int := 77

/-- The errno value EAGAIN; Transfer returns -EAGAIN when a successful backend
write accepted zero frames (the "WouldBlock" error of the specification). -/
def EAGAIN : Int := 11

/-- The errno value EIO; Prepare returns -EIO when the backend grants a buffer
smaller than requested (the "IOError" of the specification). -/
def EIOCode : Int := 5

/-- TimeoutNanoseconds from the source: an hour in nanoseconds, used as the
effectively-unbounded timeout for blocking waits and blocking writes. -/
def TimeoutNanoseconds : Int := 36000000000

/-- Result of an Oboe backend request as the bridge observes it: the source
only ever distinguishes oboe::Result::OK from every other value. -/
inductive OboeResult
  | ok
  | error
deriving DecidableEq, Repr

/-- The oboe::StreamState enumeration (the bridge compares against Started,
Paused, Flushing, Flushed and Stopped). -/
inductive StreamState
  | Uninitialized
  | Unknown
  | Open
  | Starting
  | Started
  | Pausing
  | Paused
  | Flushing
  | Flushed
  | Stopping
  | Stopped
  | Closing
  | Closed
  | Disconnected
deriving DecidableEq, Repr

/-! ## Pointer (position reporter)

OboePcm::Pointer: with no stream handle it returns -EBADFD; otherwise it reads
the backend's cumulative getFramesWritten counter; a negative counter is
reported as -1; otherwise it returns framesWritten % ext->buffer_size.
In the source the modulo is computed on a non-negative int64 against the
unsigned buffer size, which for a positive buffer size coincides with Int.emod
below. -/

/-- Shallow embedding of OboePcm::Pointer. streamPresent models whether
self->stream is non-null, framesWritten the value read from the backend,
bufferSize the negotiated ext->buffer_size. -/
def Pointer (streamPresent : Bool) (framesWritten : Int) (bufferSize : Nat) : Int :=
  if streamPresent = false then -EBADFD
  else if framesWritten < 0 then -1
  else framesWritten % (bufferSize : Int)

/-! ## Transfer (data path)

OboePcm::Transfer: with no stream handle it returns -EBADFD (checked before
everything else); a zero-frame request returns 0 with no backend interaction;
otherwise, if the stream is not Started, it issues requestStart (a rejection
fails the call with -1); then it calls the backend write with timeout 0 in
non-blocking mode and TimeoutNanoseconds in blocking mode. A backend write
error yields -1, an accepted count of zero yields -EAGAIN, and a positive
accepted count is returned as is. The interleaving check on the channel areas
is compiled only in debug builds (it sits under ifndef NDEBUG) and is not part
of the release-build behaviour embedded here. -/

/-- A backend interaction issued by Transfer, in order. -/
inductive TransferEffect
  | reqStart
  | write (frames : Nat) (timeoutNs : Int)
deriving DecidableEq, Repr

/-- Outcome of the backend write call: an error result, or OK together with
the number of frames accepted (non-negative in the source since it is the
value of a successful ResultWithValue). -/
inductive WriteResult
  | err
  | accepted (frames : Nat)
deriving DecidableEq, Repr

/-- The backend responses a single Transfer call can consume: the state
returned by getState, the result of requestStart if issued, and the outcome
of the write. -/
structure TransferBackend where
  state : StreamState
  startResult : OboeResult
  writeResult : WriteResult
deriving DecidableEq, Repr

/-- Shallow embedding of OboePcm::Transfer. Returns the ALSA status and the
ordered list of backend requests issued. -/
def Transfer (streamPresent : Bool) (nonblock : Bool) (size : Nat)
    (b : TransferBackend) : Int × List TransferEffect :=
  if streamPresent = false then (-EBADFD, [])
  else if size = 0 then (0, [])
  else
    let startEff : List TransferEffect :=
      if b.state = StreamState.Started then [] else [TransferEffect.reqStart]
    if b.state ≠ StreamState.Started ∧ b.startResult = OboeResult.error then
      (-1, [TransferEffect.reqStart])
    else
      let writeEff : TransferEffect :=
        TransferEffect.write size (if nonblock then 0 else TimeoutNanoseconds)
      match b.writeResult with
      | WriteResult.err => (-1, startEff ++ [writeEff])
      | WriteResult.accepted n =>
          if n = 0 then (-EAGAIN, startEff ++ [writeEff])
          else ((n : Int), startEff ++ [writeEff])

/-! ### Claims about Pointer and Transfer -/

/-- C5: Pointer fails with -EBADFD (NotReady) when the handle is absent, fails
with -1 (BackendError) when the frames-written counter is negative, and
otherwise returns framesWritten mod bufferSize, which lies in
[0, bufferSize) for every non-negative counter. The buffer size is positive
for every negotiated configuration (buffer bytes are negotiated in
[32768, 65536]). -/
theorem pointer_spec (streamPresent : Bool) (framesWritten : Int) (bufferSize : Nat)
    (hbs : 0 < bufferSize) :
    (streamPresent = false → Pointer streamPresent framesWritten bufferSize = -EBADFD) ∧
    (streamPresent = true → framesWritten < 0 →
      Pointer streamPresent framesWritten bufferSize = -1) ∧
    (streamPresent = true → 0 ≤ framesWritten →
      Pointer streamPresent framesWritten bufferSize = framesWritten % (bufferSize : Int) ∧
      0 ≤ Pointer streamPresent framesWritten bufferSize ∧
      Pointer streamPresent framesWritten bufferSize < (bufferSize : Int)) := by
  refine ⟨fun hp => by simp [Pointer, hp], fun hp hneg => by simp [Pointer, hp, hneg], ?_⟩
  intro hp hnn
  have hmod : Pointer streamPresent framesWritten bufferSize
      = framesWritten % (bufferSize : Int) := by
    simp [Pointer, hp, not_lt.mpr hnn]
  have hbsz : (0 : Int) < (bufferSize : Int) := by exact_mod_cast hbs
  refine ⟨hmod, ?_, ?_⟩
  · rw [hmod]; exact Int.emod_nonneg framesWritten (by omega)
  · rw [hmod]; exact Int.emod_lt_of_pos framesWritten hbsz

/-- Witness for pointer_spec at a concrete configuration. -/
theorem pointer_spec_witness :
    (false = false → Pointer false 7 4 = -EBADFD) ∧
    (false = true → (7 : Int) < 0 → Pointer false 7 4 = -1) ∧
    (false = true → (0 : Int) ≤ 7 →
      Pointer false 7 4 = 7 % (4 : Int) ∧
      0 ≤ Pointer false 7 4 ∧ Pointer false 7 4 < (4 : Int)) :=
  pointer_spec false 7 4 (by decide)

/-- C6: a Transfer call with a handle present and frameCount zero returns 0
and issues no backend request at all (in particular no start request and no
write), for either blocking mode and any backend script. -/
theorem transfer_zero_frames (nonblock : Bool) (b : TransferBackend) :
    Transfer true nonblock 0 b = (0, []) := by
  simp [Transfer]

/-- C10: the handle-presence check precedes the zero-frame early return: a
Transfer with frameCount zero and no handle returns -EBADFD (NotReady), which
is not the 0 of the zero-frame path, and issues no backend request. -/
theorem transfer_no_stream_zero (nonblock : Bool) (b : TransferBackend) :
    Transfer false nonblock 0 b = (-EBADFD, []) ∧ -EBADFD ≠ (0 : Int) := by
  constructor
  · simp [Transfer]
  · decide

/-- C7: once the write is reached (handle present, positive frame count, and
the stream already Started or the implicit start accepted): a successful write
that accepted zero frames returns -EAGAIN (WouldBlock) in blocking and
non-blocking mode alike and never the hard errors -1 or -EBADFD; a backend
write error returns -1 (BackendError); a positive accepted count n is returned
exactly as n. -/
theorem transfer_write_result (nonblock : Bool) (size : Nat) (b : TransferBackend) (n : Nat)
    (hs : 0 < size)
    (hstart : b.state = StreamState.Started ∨ b.startResult = OboeResult.ok) :
    (b.writeResult = WriteResult.accepted 0 →
      (Transfer true nonblock size b).1 = -EAGAIN ∧
      (Transfer true nonblock size b).1 ≠ -1 ∧
      (Transfer true nonblock size b).1 ≠ -EBADFD) ∧
    (b.writeResult = WriteResult.err → (Transfer true nonblock size b).1 = -1) ∧
    (b.writeResult = WriteResult.accepted n → 0 < n →
      (Transfer true nonblock size b).1 = (n : Int)) := by
  have hns : ¬ size = 0 := Nat.pos_iff_ne_zero.mp hs
  have hguard : ¬ (b.state ≠ StreamState.Started ∧ b.startResult = OboeResult.error) := by
    rcases hstart with h | h
    · exact fun hc => hc.1 h
    · exact fun hc => by rw [h] at hc; exact absurd hc.2 (by decide)
  refine ⟨fun hw => ?_, fun hw => ?_, fun hw hn => ?_⟩
  · simp [Transfer, hns, hguard, hw, EAGAIN, EBADFD]
  · simp [Transfer, hns, hguard, hw]
  · have hnz : ¬ n = 0 := Nat.pos_iff_ne_zero.mp hn
    simp [Transfer, hns, hguard, hw, hnz]

/-- A concrete backend script: stream already started, write accepts zero
frames (the backpressure case). -/
def zeroAcceptBackend : TransferBackend :=
  ⟨StreamState.Started, OboeResult.ok, WriteResult.accepted 0⟩

/-- Witness for transfer_write_result at a concrete non-blocking call whose
backend write accepts zero frames. -/
theorem transfer_write_result_witness :
    (zeroAcceptBackend.writeResult = WriteResult.accepted 0 →
      (Transfer true true 4 zeroAcceptBackend).1 = -EAGAIN ∧
      (Transfer true true 4 zeroAcceptBackend).1 ≠ -1 ∧
      (Transfer true true 4 zeroAcceptBackend).1 ≠ -EBADFD) ∧
    (zeroAcceptBackend.writeResult = WriteResult.err →
      (Transfer true true 4 zeroAcceptBackend).1 = -1) ∧
    (zeroAcceptBackend.writeResult = WriteResult.accepted 3 → 0 < 3 →
      (Transfer true true 4 zeroAcceptBackend).1 = (3 : Int)) :=
  transfer_write_result true 4 zeroAcceptBackend 3 (by decide) (Or.inl rfl)

/-! ## Prepare (open / negotiation)

OboePcm::Prepare: if a stream handle is already present it returns 0 at once.
Otherwise it configures an AudioStreamBuilder, mapping the negotiated ALSA
format through a switch — SND_PCM_FORMAT_S16_LE to I16, SND_PCM_FORMAT_FLOAT_LE
to Float, SND_PCM_FORMAT_S24_3LE to I24, SND_PCM_FORMAT_S32_LE to I32, and
every other format to AudioFormat::Invalid — and then calls
builder.openStream with whatever format the switch produced; there is no
early-out for the Invalid case. An open failure returns -1 with the handle
still absent. After a successful open, if getBufferCapacityInFrames is below
the requested ext->buffer_size, the handle is reset and the call returns
-EIO; otherwise it returns 0 with the handle attached. -/

/-- ALSA format constant SND_PCM_FORMAT_S16_LE. -/
def SND_PCM_FORMAT_S16_LE : Nat := 2

/-- ALSA format constant SND_PCM_FORMAT_S32_LE. -/
def SND_PCM_FORMAT_S32_LE : Nat := 10

/-- ALSA format constant SND_PCM_FORMAT_FLOAT_LE. -/
def SND_PCM_FORMAT_FLOAT_LE : Nat := 14

/-- ALSA format constant SND_PCM_FORMAT_S24_3LE. -/
def SND_PCM_FORMAT_S24_3LE : Nat := 32

/-- The oboe::AudioFormat values the switch in Prepare can produce. -/
inductive AudioFormat
  | Invalid
  | I16
  | Float
  | I24
  | I32
deriving DecidableEq, Repr

/-- The format switch of OboePcm::Prepare (the lambda assigned to setFormat). -/
def mapFormat (fmt : Nat) : AudioFormat :=
  if fmt = SND_PCM_FORMAT_S16_LE then AudioFormat.I16
  else if fmt = SND_PCM_FORMAT_FLOAT_LE then AudioFormat.Float
  else if fmt = SND_PCM_FORMAT_S24_3LE then AudioFormat.I24
  else if fmt = SND_PCM_FORMAT_S32_LE then AudioFormat.I32
  else AudioFormat.Invalid

/-- The backend responses a single Prepare call can consume: the result of
openStream, and getBufferCapacityInFrames after a successful open (non-negative
for a successfully opened stream, hence a Nat). -/
structure PrepareBackend where
  openResult : OboeResult
  capacity : Nat
deriving DecidableEq, Repr

/-- Shallow embedding of OboePcm::Prepare. Returns the ALSA status, whether a
stream handle is attached afterwards, and the list of openStream attempts made
together with the format each attempt carried. -/
def Prepare (streamPresent : Bool) (fmt : Nat) (bufferSize : Nat)
    (b : PrepareBackend) : Int × Bool × List AudioFormat :=
  if streamPresent then (0, true, [])
  else
    match b.openResult with
    | OboeResult.error => (-1, false, [mapFormat fmt])
    | OboeResult.ok =>
        if b.capacity < bufferSize then (-EIOCode, false, [mapFormat fmt])
        else (0, true, [mapFormat fmt])

/-! ### Claims about Prepare -/

/-- C2 counterexample: SND_PCM_FORMAT_S8 (value 0) is not one of the four
supported formats, yet Prepare does not decide a failure before opening: it
maps the format to Invalid, issues an openStream attempt carrying Invalid, and
with a backend that accepts that open and grants the requested capacity the
call even succeeds. -/
theorem prepare_unsupported_counterexample :
    mapFormat 0 = AudioFormat.Invalid ∧
    (0 ≠ SND_PCM_FORMAT_S16_LE ∧ 0 ≠ SND_PCM_FORMAT_FLOAT_LE ∧
      0 ≠ SND_PCM_FORMAT_S24_3LE ∧ 0 ≠ SND_PCM_FORMAT_S32_LE) ∧
    Prepare false 0 1024 ⟨OboeResult.ok, 1024⟩ = (0, true, [AudioFormat.Invalid]) := by
  refine ⟨by decide, by decide, ?_⟩
  simp [Prepare, mapFormat]
  decide

/-- C2 (amended): a Prepare call with no handle and an unsupported host format
maps the format to Invalid and still issues exactly one backend open attempt
carrying Invalid; the outcome is decided by the backend, not beforehand: an
open rejection yields -1, a successful open with capacity below the requested
buffer size yields -EIO, and otherwise the call succeeds. -/
theorem prepare_unsupported (fmt bufferSize : Nat) (b : PrepareBackend)
    (hfmt : mapFormat fmt = AudioFormat.Invalid) :
    (Prepare false fmt bufferSize b).2.2 = [AudioFormat.Invalid] ∧
    (b.openResult = OboeResult.error →
      Prepare false fmt bufferSize b = (-1, false, [AudioFormat.Invalid])) ∧
    (b.openResult = OboeResult.ok → b.capacity < bufferSize →
      Prepare false fmt bufferSize b = (-EIOCode, false, [AudioFormat.Invalid])) ∧
    (b.openResult = OboeResult.ok → ¬ b.capacity < bufferSize →
      Prepare false fmt bufferSize b = (0, true, [AudioFormat.Invalid])) := by
  refine ⟨?_, fun ho => ?_, fun ho hc => ?_, fun ho hc => ?_⟩
  · cases ho : b.openResult <;> simp [Prepare, ho, hfmt]
    by_cases hc : b.capacity < bufferSize <;> simp [hc]
  · simp [Prepare, ho, hfmt]
  · simp [Prepare, ho, hc, hfmt]
  · simp [Prepare, ho, hc, hfmt]

/-- Witness for prepare_unsupported: format S8 (value 0) with a backend that
rejects the open. -/
theorem prepare_unsupported_witness :
    (Prepare false 0 1024 ⟨OboeResult.error, 0⟩).2.2 = [AudioFormat.Invalid] ∧
    ((⟨OboeResult.error, 0⟩ : PrepareBackend).openResult = OboeResult.error →
      Prepare false 0 1024 ⟨OboeResult.error, 0⟩ = (-1, false, [AudioFormat.Invalid])) ∧
    ((⟨OboeResult.error, 0⟩ : PrepareBackend).openResult = OboeResult.ok →
      (⟨OboeResult.error, 0⟩ : PrepareBackend).capacity < 1024 →
      Prepare false 0 1024 ⟨OboeResult.error, 0⟩ = (-EIOCode, false, [AudioFormat.Invalid])) ∧
    ((⟨OboeResult.error, 0⟩ : PrepareBackend).openResult = OboeResult.ok →
      ¬ (⟨OboeResult.error, 0⟩ : PrepareBackend).capacity < 1024 →
      Prepare false 0 1024 ⟨OboeResult.error, 0⟩ = (0, true, [AudioFormat.Invalid])) :=
  prepare_unsupported 0 1024 ⟨OboeResult.error, 0⟩ (by decide)

/-- C9: when a Prepare call with no handle opens the backend stream
successfully but the granted buffer capacity is strictly below the requested
buffer size, the call releases the just-opened handle and fails with -EIO
(IOError), leaving the bridge with no handle present. -/
theorem prepare_capacity_too_small (fmt bufferSize : Nat) (b : PrepareBackend)
    (hopen : b.openResult = OboeResult.ok) (hcap : b.capacity < bufferSize) :
    Prepare false fmt bufferSize b = (-EIOCode, false, [mapFormat fmt]) := by
  simp [Prepare, hopen, hcap]

/-- Witness for prepare_capacity_too_small: a successful open granting 512
frames against a requested 1024. -/
theorem prepare_capacity_too_small_witness :
    Prepare false SND_PCM_FORMAT_S16_LE 1024 ⟨OboeResult.ok, 512⟩ =
      (-EIOCode, false, [mapFormat SND_PCM_FORMAT_S16_LE]) :=
  prepare_capacity_too_small SND_PCM_FORMAT_S16_LE 1024 ⟨OboeResult.ok, 512⟩
    (by decide) (by decide)

/-! ## Stop (pause-then-flush)

OboePcm::Stop: with no stream handle it returns -EBADFD. If getState is
already Stopped or Flushed it returns 0 without touching the backend.
Otherwise it issues requestPause (a rejection fails the call with -1), then
loops calling waitForStateChange until the state is Paused (any wait error
fails the call with -1), then issues requestFlush (rejection: -1), then loops
on waitForStateChange until the state is Flushed (error: -1), and returns 0.
No step is ever retried after a failure.

The backend script for one Stop call fixes the state read at entry, the
results of the two requests, the state read after each request, and the
responses of the successive waitForStateChange calls of each loop. A wait
loop whose script runs out before reaching its target state corresponds to a
call still blocked in the loop; the embedding returns none for it. -/

/-- A backend request issued by Stop, in order. -/
inductive BackendReq
  | reqPause
  | reqFlush
  | waitState
deriving DecidableEq, Repr

/-- The backend responses a single Stop call can consume. -/
structure StopBackend where
  state0 : StreamState
  pauseResult : OboeResult
  stateAfterPause : StreamState
  pauseWaits : List (OboeResult × StreamState)
  flushResult : OboeResult
  stateAfterFlush : StreamState
  flushWaits : List (OboeResult × StreamState)
deriving DecidableEq, Repr

/-- One wait loop of Stop: while the state differs from the target, call
waitForStateChange with the next scripted response. Returns none when the
script is exhausted with the target unreached (the real loop keeps waiting),
and otherwise some (n, ok) where n counts the wait calls made and ok records
whether the target was reached (true) or a wait call failed (false). -/
def waitUntil (target : StreamState) : StreamState → List (OboeResult × StreamState) →
    Option (Nat × Bool)
  | state, script =>
    if state = target then some (0, true)
    else
      match script with
      | [] => none
      | (r, s) :: rest =>
          match r with
          | OboeResult.ok => (waitUntil target s rest).map (fun p => (p.1 + 1, p.2))
          | OboeResult.error => some (1, false)

/-- Shallow embedding of OboePcm::Stop for a call with a handle present.
Returns none when the call is still blocked inside a wait loop whose script
ran out, and otherwise the ALSA status together with the ordered list of
backend requests issued. -/
def Stop (b : StopBackend) : Option (Int × List BackendReq) :=
  if b.state0 = StreamState.Stopped ∨ b.state0 = StreamState.Flushed then some (0, [])
  else
    match b.pauseResult with
    | OboeResult.error => some (-1, [BackendReq.reqPause])
    | OboeResult.ok =>
        match waitUntil StreamState.Paused b.stateAfterPause b.pauseWaits with
        | none => none
        | some (n, false) =>
            some (-1, BackendReq.reqPause :: List.replicate n BackendReq.waitState)
        | some (n, true) =>
            match b.flushResult with
            | OboeResult.error =>
                some (-1, BackendReq.reqPause ::
                  (List.replicate n BackendReq.waitState ++ [BackendReq.reqFlush]))
            | OboeResult.ok =>
                match waitUntil StreamState.Flushed b.stateAfterFlush b.flushWaits with
                | none => none
                | some (m, false) =>
                    some (-1, BackendReq.reqPause ::
                      (List.replicate n BackendReq.waitState ++
                        BackendReq.reqFlush :: List.replicate m BackendReq.waitState))
                | some (m, true) =>
                    some (0, BackendReq.reqPause ::
                      (List.replicate n BackendReq.waitState ++
                        BackendReq.reqFlush :: List.replicate m BackendReq.waitState))

/-! ### Claims about Stop -/

/-- C8: a Stop call with a handle present whose stream state is already
Stopped or Flushed returns success immediately and issues no backend request
at all. -/
theorem stop_already_stopped (b : StopBackend)
    (h : b.state0 = StreamState.Stopped ∨ b.state0 = StreamState.Flushed) :
    Stop b = some (0, []) := by
  simp [Stop, h]

/-- A concrete Stop backend script: stream already Stopped. -/
def stoppedBackend : StopBackend :=
  ⟨StreamState.Stopped, OboeResult.ok, StreamState.Stopped, [],
    OboeResult.ok, StreamState.Stopped, []⟩

/-- Witness for stop_already_stopped on a stream already Stopped. -/
theorem stop_already_stopped_witness : Stop stoppedBackend = some (0, []) :=
  stop_already_stopped stoppedBackend (Or.inl rfl)

/-- C4: a Stop call with a handle present and a stream neither Stopped nor
Flushed that returns performs exactly the sequence pause request, wait loop
until Paused, flush request, wait loop until Flushed when it succeeds; and
when any of the four steps is rejected or a wait fails, the call returns -1
(BackendError) having issued exactly the requests up to and including the
failing one — nothing is retried and no further request is issued. -/
theorem stop_sequence (b : StopBackend) (r : Int) (log : List BackendReq)
    (h1 : b.state0 ≠ StreamState.Stopped) (h2 : b.state0 ≠ StreamState.Flushed)
    (h : Stop b = some (r, log)) :
    (r = 0 ∧ b.pauseResult = OboeResult.ok ∧ b.flushResult = OboeResult.ok ∧
      ∃ n m, waitUntil StreamState.Paused b.stateAfterPause b.pauseWaits = some (n, true) ∧
        waitUntil StreamState.Flushed b.stateAfterFlush b.flushWaits = some (m, true) ∧
        log = BackendReq.reqPause :: (List.replicate n BackendReq.waitState ++
          BackendReq.reqFlush :: List.replicate m BackendReq.waitState)) ∨
    (r = -1 ∧
      ((b.pauseResult = OboeResult.error ∧ log = [BackendReq.reqPause]) ∨
       (b.pauseResult = OboeResult.ok ∧
        ∃ n, waitUntil StreamState.Paused b.stateAfterPause b.pauseWaits = some (n, false) ∧
          log = BackendReq.reqPause :: List.replicate n BackendReq.waitState) ∨
       (b.pauseResult = OboeResult.ok ∧ b.flushResult = OboeResult.error ∧
        ∃ n, waitUntil StreamState.Paused b.stateAfterPause b.pauseWaits = some (n, true) ∧
          log = BackendReq.reqPause :: (List.replicate n BackendReq.waitState ++
            [BackendReq.reqFlush])) ∨
       (b.pauseResult = OboeResult.ok ∧ b.flushResult = OboeResult.ok ∧
        ∃ n m, waitUntil StreamState.Paused b.stateAfterPause b.pauseWaits = some (n, true) ∧
          waitUntil StreamState.Flushed b.stateAfterFlush b.flushWaits = some (m, false) ∧
          log = BackendReq.reqPause :: (List.replicate n BackendReq.waitState ++
            BackendReq.reqFlush :: List.replicate m BackendReq.waitState)))) := by
  unfold Stop at h
  rw [if_neg (by rintro (hc | hc) <;> [exact h1 hc; exact h2 hc])] at h
  cases hp : b.pauseResult with
  | error =>
      rw [hp] at h
      simp only [Option.some.injEq, Prod.mk.injEq] at h
      exact Or.inr ⟨h.1.symm, Or.inl ⟨rfl, h.2.symm⟩⟩
  | ok =>
      rw [hp] at h
      cases hw : waitUntil StreamState.Paused b.stateAfterPause b.pauseWaits with
      | none => rw [hw] at h; exact absurd h (by simp)
      | some p =>
          obtain ⟨n, ok1⟩ := p
          rw [hw] at h
          cases ok1 with
          | false =>
              simp only [Option.some.injEq, Prod.mk.injEq] at h
              exact Or.inr ⟨h.1.symm, Or.inr (Or.inl ⟨rfl, n, rfl, h.2.symm⟩)⟩
          | true =>
              cases hf : b.flushResult with
              | error =>
                  rw [hf] at h
                  simp only [Option.some.injEq, Prod.mk.injEq] at h
                  exact Or.inr ⟨h.1.symm, Or.inr (Or.inr (Or.inl ⟨rfl, rfl, n, rfl, h.2.symm⟩))⟩
              | ok =>
                  rw [hf] at h
                  cases hw2 : waitUntil StreamState.Flushed b.stateAfterFlush b.flushWaits with
                  | none => rw [hw2] at h; exact absurd h (by simp)
                  | some q =>
                      obtain ⟨m, ok2⟩ := q
                      rw [hw2] at h
                      cases ok2 with
                      | false =>
                          simp only [Option.some.injEq, Prod.mk.injEq] at h
                          exact Or.inr ⟨h.1.symm,
                            Or.inr (Or.inr (Or.inr ⟨rfl, rfl, n, m, rfl, rfl, h.2.symm⟩))⟩
                      | true =>
                          simp only [Option.some.injEq, Prod.mk.injEq] at h
                          exact Or.inl ⟨h.1.symm, rfl, rfl, n, m, rfl, rfl, h.2.symm⟩

/-- A concrete Stop backend script: a Started stream that pauses after one
wait and flushes after one wait. -/
def pausingBackend : StopBackend :=
  ⟨StreamState.Started, OboeResult.ok, StreamState.Pausing,
    [(OboeResult.ok, StreamState.Paused)],
    OboeResult.ok, StreamState.Flushing,
    [(OboeResult.ok, StreamState.Flushed)]⟩

/-- Witness for stop_sequence on pausingBackend, whose Stop call succeeds with
the full pause, wait, flush, wait request sequence. -/
theorem stop_sequence_witness :
    ((0 : Int) = 0 ∧ pausingBackend.pauseResult = OboeResult.ok ∧
      pausingBackend.flushResult = OboeResult.ok ∧
      ∃ n m, waitUntil StreamState.Paused pausingBackend.stateAfterPause
          pausingBackend.pauseWaits = some (n, true) ∧
        waitUntil StreamState.Flushed pausingBackend.stateAfterFlush
          pausingBackend.flushWaits = some (m, true) ∧
        [BackendReq.reqPause, BackendReq.waitState, BackendReq.reqFlush,
          BackendReq.waitState] =
          BackendReq.reqPause :: (List.replicate n BackendReq.waitState ++
            BackendReq.reqFlush :: List.replicate m BackendReq.waitState)) ∨
    ((0 : Int) = -1 ∧
      ((pausingBackend.pauseResult = OboeResult.error ∧
        [BackendReq.reqPause, BackendReq.waitState, BackendReq.reqFlush,
          BackendReq.waitState] = [BackendReq.reqPause]) ∨
       (pausingBackend.pauseResult = OboeResult.ok ∧
        ∃ n, waitUntil StreamState.Paused pausingBackend.stateAfterPause
            pausingBackend.pauseWaits = some (n, false) ∧
          [BackendReq.reqPause, BackendReq.waitState, BackendReq.reqFlush,
            BackendReq.waitState] =
            BackendReq.reqPause :: List.replicate n BackendReq.waitState) ∨
       (pausingBackend.pauseResult = OboeResult.ok ∧
        pausingBackend.flushResult = OboeResult.error ∧
        ∃ n, waitUntil StreamState.Paused pausingBackend.stateAfterPause
            pausingBackend.pauseWaits = some (n, true) ∧
          [BackendReq.reqPause, BackendReq.waitState, BackendReq.reqFlush,
            BackendReq.waitState] =
            BackendReq.reqPause :: (List.replicate n BackendReq.waitState ++
              [BackendReq.reqFlush])) ∨
       (pausingBackend.pauseResult = OboeResult.ok ∧
        pausingBackend.flushResult = OboeResult.ok ∧
        ∃ n m, waitUntil StreamState.Paused pausingBackend.stateAfterPause
            pausingBackend.pauseWaits = some (n, true) ∧
          waitUntil StreamState.Flushed pausingBackend.stateAfterFlush
            pausingBackend.flushWaits = some (m, false) ∧
          [BackendReq.reqPause, BackendReq.waitState, BackendReq.reqFlush,
            BackendReq.waitState] =
            BackendReq.reqPause :: (List.replicate n BackendReq.waitState ++
              BackendReq.reqFlush :: List.replicate m BackendReq.waitState)))) :=
  stop_sequence pausingBackend 0
    [BackendReq.reqPause, BackendReq.waitState, BackendReq.reqFlush, BackendReq.waitState]
    (by decide) (by decide) (by decide)

/-! ## Drain (polling loop)

OboePcm::Drain records a start timestamp and adds one second to it. Each loop
iteration then reads getFramesRead (negative: return -1), reads
getFramesWritten (negative: return -1), exits the loop when the two are equal,
sleeps one millisecond, reads the clock again, and exits the loop through the
safety valve when the current time is strictly past start plus one second and
the framesRead value read this iteration is exactly zero. After the loop the
source issues requestStop and waits for Stopped; the claims here concern the
polling loop itself.

One loop iteration is embedded as a DrainSample: the two counter values read
in that iteration, and whether the post-sleep clock comparison found more than
one second elapsed since the recorded start. -/

/-- The backend and clock values one Drain loop iteration observes. -/
structure DrainSample where
  framesRead : Int
  framesWritten : Int
  timedOut : Bool
deriving DecidableEq, Repr

/-- How the Drain polling loop can end. -/
inductive DrainExit
  | drained
  | valve
  | backendError
deriving DecidableEq, Repr

/-- One iteration of the Drain polling loop: none means the loop continues
into the next iteration. The checks appear in source order: framesRead sign,
framesWritten sign, equality, then (after the sleep) the safety valve. -/
def drainStep (s : DrainSample) : Option DrainExit :=
  if s.framesRead < 0 then some DrainExit.backendError
  else if s.framesWritten < 0 then some DrainExit.backendError
  else if s.framesRead = s.framesWritten then some DrainExit.drained
  else if s.timedOut = true ∧ s.framesRead = 0 then some DrainExit.valve
  else none

/-- The Drain polling loop over a finite script of iterations; none means the
script ended with the loop still running. -/
def drainLoop : List DrainSample → Option DrainExit
  | [] => none
  | s :: rest =>
      match drainStep s with
      | some e => some e
      | none => drainLoop rest

/-! ### Claim about Drain -/

/-- The safety-valve exit of one Drain iteration happens exactly when more
than one second has elapsed while framesRead is zero; positivity of
framesWritten follows because equal counters would already have exited. -/
theorem drainStep_valve_iff (s : DrainSample) :
    drainStep s = some DrainExit.valve ↔
      s.timedOut = true ∧ s.framesRead = 0 ∧ 0 < s.framesWritten := by
  unfold drainStep
  split_ifs with h1 h2 h3 h4
  · constructor
    · intro h; simp at h
    · rintro ⟨ht, hr, hw⟩; omega
  · constructor
    · intro h; simp at h
    · rintro ⟨ht, hr, hw⟩; omega
  · constructor
    · intro h; simp at h
    · rintro ⟨ht, hr, hw⟩; omega
  · constructor
    · intro h
      have hr := h4.2
      exact ⟨h4.1, h4.2, by omega⟩
    · intro h; rfl
  · constructor
    · intro h; simp at h
    · rintro ⟨ht, hr, hw⟩; exact absurd ⟨ht, hr⟩ h4

/-- The drained exit of one Drain iteration happens exactly when the two
non-negative counters agree. -/
theorem drainStep_drained_iff (s : DrainSample) :
    drainStep s = some DrainExit.drained ↔
      0 ≤ s.framesRead ∧ s.framesRead = s.framesWritten := by
  unfold drainStep
  split_ifs with h1 h2 h3 h4
  · constructor
    · intro h; simp at h
    · rintro ⟨hnn, heq⟩; omega
  · constructor
    · intro h; simp at h
    · rintro ⟨hnn, heq⟩; omega
  · constructor
    · intro h; exact ⟨by omega, h3⟩
    · intro h; rfl
  · constructor
    · intro h; simp at h
    · rintro ⟨hnn, heq⟩; exact absurd heq h3
  · constructor
    · intro h; simp at h
    · rintro ⟨hnn, heq⟩; exact absurd heq h3

/-- The error exit of one Drain iteration happens exactly when a counter read
negative. -/
theorem drainStep_error_iff (s : DrainSample) :
    drainStep s = some DrainExit.backendError ↔
      s.framesRead < 0 ∨ s.framesWritten < 0 := by
  unfold drainStep
  split_ifs with h1 h2 h3 h4
  · exact ⟨fun _ => Or.inl h1, fun _ => rfl⟩
  · exact ⟨fun _ => Or.inr h2, fun _ => rfl⟩
  · constructor
    · intro h; simp at h
    · rintro (h | h) <;> omega
  · constructor
    · intro h; simp at h
    · rintro (h | h) <;> omega
  · constructor
    · intro h; simp at h
    · rintro (h | h) <;> omega

/-- C3: whenever the Drain polling loop exits, there is a first deciding
iteration, all earlier iterations having continued; and at that iteration the
safety valve fires exactly when more than one second has elapsed since the
recorded start while framesRead is still exactly zero — in which case
framesWritten is necessarily positive — a drained exit happens exactly when
the non-negative counters are equal, and a BackendError exit happens exactly
when one counter read negative. -/
theorem drain_safety_valve (l : List DrainSample) (e : DrainExit)
    (h : drainLoop l = some e) :
    ∃ pre s post, l = pre ++ s :: post ∧ (∀ t ∈ pre, drainStep t = none) ∧
      drainStep s = some e ∧
      (e = DrainExit.valve ↔
        s.timedOut = true ∧ s.framesRead = 0 ∧ 0 < s.framesWritten) ∧
      (e = DrainExit.drained ↔ 0 ≤ s.framesRead ∧ s.framesRead = s.framesWritten) ∧
      (e = DrainExit.backendError ↔ s.framesRead < 0 ∨ s.framesWritten < 0) := by
  induction l with
  | nil => simp [drainLoop] at h
  | cons s rest ih =>
      unfold drainLoop at h
      cases hs : drainStep s with
      | some e0 =>
          rw [hs] at h
          have he : e0 = e := by simpa using h
          subst he
          refine ⟨[], s, rest, rfl, by simp, hs, ?_, ?_, ?_⟩
          · constructor
            · intro hv; rw [hv] at hs; exact (drainStep_valve_iff s).mp hs
            · intro hc
              have hv := (drainStep_valve_iff s).mpr hc
              rw [hs] at hv
              exact Option.some.inj hv
          · constructor
            · intro hv; rw [hv] at hs; exact (drainStep_drained_iff s).mp hs
            · intro hc
              have hv := (drainStep_drained_iff s).mpr hc
              rw [hs] at hv
              exact Option.some.inj hv
          · constructor
            · intro hv; rw [hv] at hs; exact (drainStep_error_iff s).mp hs
            · intro hc
              have hv := (drainStep_error_iff s).mpr hc
              rw [hs] at hv
              exact Option.some.inj hv
      | none =>
          rw [hs] at h
          obtain ⟨pre, t, post, hl, hpre, hrest⟩ := ih h
          refine ⟨s :: pre, t, post, by rw [hl, List.cons_append], ?_, hrest⟩
          intro u hu
          rcases List.mem_cons.mp hu with hu | hu
          · rw [hu]; exact hs
          · exact hpre u hu

/-- Witness for drain_safety_valve: a one-iteration script where the backend
has written five frames, read none, and more than a second has elapsed — the
loop exits through the safety valve. -/
theorem drain_safety_valve_witness :
    ∃ pre s post, [(⟨0, 5, true⟩ : DrainSample)] = pre ++ s :: post ∧
      (∀ t ∈ pre, drainStep t = none) ∧
      drainStep s = some DrainExit.valve ∧
      (DrainExit.valve = DrainExit.valve ↔
        s.timedOut = true ∧ s.framesRead = 0 ∧ 0 < s.framesWritten) ∧
      (DrainExit.valve = DrainExit.drained ↔
        0 ≤ s.framesRead ∧ s.framesRead = s.framesWritten) ∧
      (DrainExit.valve = DrainExit.backendError ↔
        s.framesRead < 0 ∨ s.framesWritten < 0) :=
  drain_safety_valve [⟨0, 5, true⟩] DrainExit.valve (by decide)

/-! ## Close (teardown)

OboePcm::Close receives the ioplug handle and, when ext->private_data is
non-null, first sets ext->private_data to nullptr, then initialises self by
casting the value of ext->private_data — which it has just set to nullptr —
and finally applies delete to self. Deleting a null pointer is a no-op in
C++, so the OboePcm object is never destroyed by Close and its destructor
(which acquires the mutex and resets the stream handle) never runs from this
path. The embedding keeps the source's statement order, including the
re-read of the just-cleared field.

The heap is a list of live OboePcm objects keyed by address; each object
records whether its backend stream handle is attached. delete runs the
destructor (which releases the stream) and removes the object. -/

/-- A live OboePcm object: whether self->stream is attached. -/
structure OboePcmObj where
  streamPresent : Bool
deriving DecidableEq, Repr

/-- The state Close operates on: the value of ext->private_data (an address
or null) and the heap of live OboePcm objects. -/
structure ExtState where
  privateData : Option Nat
  heap : List (Nat × OboePcmObj)
deriving DecidableEq, Repr

/-- The delete expression: deleting null does nothing; deleting an address
runs the destructor (releasing the stream) and frees the object, removing it
from the heap. -/
def deleteObj (heap : List (Nat × OboePcmObj)) : Option Nat → List (Nat × OboePcmObj)
  | none => heap
  | some a => heap.filter (fun p => p.1 ≠ a)

/-- Shallow embedding of OboePcm::Close, statement by statement: test
ext->private_data; if non-null, assign nullptr to it, read it again into
self, delete self; return 0 in every case. -/
def Close (st : ExtState) : Int × ExtState :=
  match st.privateData with
  | none => (0, st)
  | some _ =>
      let st1 : ExtState := ⟨none, st.heap⟩
      let self : Option Nat := st1.privateData
      (0, ⟨st1.privateData, deleteObj st1.heap self⟩)

/-! ### Claim about Close -/

/-- C1 (code divergence): on a bridge whose handle reference is attached
(ext->private_data points at a live OboePcm at address 1 whose stream handle
is attached), the first Close does detach the reference and return success,
and the second Close is a success no-op — but the bridge object stays on the
heap with its stream still attached after both calls, because the source
reads ext->private_data back after clearing it and therefore deletes a null
pointer. The claimed release of the backend stream and the bridge object
never happens. -/
theorem close_leaks_bridge :
    Close ⟨some 1, [(1, ⟨true⟩)]⟩ = (0, ⟨none, [(1, ⟨true⟩)]⟩) ∧
    Close ⟨none, [(1, ⟨true⟩)]⟩ = (0, ⟨none, [(1, ⟨true⟩)]⟩) ∧
    (⟨none, [(1, ⟨true⟩)]⟩ : ExtState).heap ≠ [] := by
  refine ⟨?_, rfl, by decide⟩
  simp [Close, deleteObj]

end AlsaOboe
